import Mathlib

/-!
Shallow embedding of `src/graphics/canvas3d.rs` (the `Canvas3d` 3d rendering
canvas of ggez): the draw-command queue, the pipeline cache, instance
batching and the end-of-frame `finish` submission protocol, together with
proofs of the spec's claims about them.

GPU handles (images, buffers, bind groups, shader modules) are opaque to the
canvas logic; they are modelled as natural-number tokens.  Types that the
excerpt only consumes through a small interface (`Mesh3d`, `Shader`, `Aabb`,
`Instance3d`) are modelled at that interface.
-/

/-- Opaque GPU image handle (`graphics::Image`). -/
abbrev Image := Nat

/-- Opaque GPU buffer handle (`wgpu::Buffer`) for camera / vertex / index buffers. -/
abbrev Buffer := Nat

/-- Opaque GPU bind-group handle (`wgpu::BindGroup`). -/
abbrev BindGroup := Nat

/-- Opaque color value (`graphics::Color`); its components are irrelevant to the claims. -/
abbrev Color := Nat

/-- Texture sampler choice (`graphics::Sampler`). -/
structure Sampler where
  id : Nat
deriving DecidableEq

/-- `graphics::Sampler::default()`. -/
def Sampler.default : Sampler := ⟨0⟩

/-- A compiled shader (`graphics::Shader`).  The canvas compares shaders with
`==` (shader identity); the vertex/fragment module handles it exposes are not
observable by any claim and are elided. -/
structure Shader where
  id : Nat
deriving DecidableEq

/-- `DrawState3d`: the shader-identity key used to select a pipeline. -/
structure DrawState3d where
  shader : Shader
deriving DecidableEq

/-- A built GPU render pipeline (`wgpu::RenderPipeline`).  The fixed-function
descriptor built in `new` / `update_pipeline` is identical for every pipeline;
the only varying input is the draw state it was built from, which we record. -/
structure RenderPipeline where
  builtFrom : DrawState3d
deriving DecidableEq

/-- A 3-component vector (`glam::Vec3`), with exact coordinates. -/
structure Vec3 where
  x : Int
  y : Int
  z : Int
deriving DecidableEq

/-- Modelled from the spec: the axis-aligned bounding volume (`Aabb`) of a mesh
is defined outside the excerpt; the canvas only reads its `center`, and
`Aabb::default()` is the zero-centered default bounding volume. -/
structure Aabb where
  center : Vec3
deriving DecidableEq

/-- `Aabb::default()`, zero-centered. -/
def Aabb.default : Aabb := ⟨⟨0, 0, 0⟩⟩

/-- Draw parameters (`DrawParam3d`): an optional pivot offset plus the
remaining transform/color payload, which the canvas forwards unchanged. -/
structure DrawParam3d where
  offset : Option Vec3
  rest : Nat
deriving DecidableEq

/-- A per-draw instance record (`Instance3d`).  Modelled from the spec: the
POD struct is derived from the draw parameters plus the chosen pivot; we keep
both inputs, which determine it. -/
structure Instance3d where
  param : DrawParam3d
  pivot : Vec3
deriving DecidableEq

/-- `Instance3d::from_param(param, pivot)`. -/
def Instance3d.from_param (param : DrawParam3d) (pivot : Vec3) : Instance3d :=
  ⟨param, pivot⟩

/-- A mesh (`Mesh3d`) at the interface the canvas uses: optional generated GPU
resources, the index list (only its length is consumed, via
`draw.mesh.indices.len()`), and the lazily computed bounding volume
(`to_aabb()` returns `None` when the mesh has no computed bounds). -/
structure Mesh3d where
  bind_group : Option BindGroup
  vert_buffer : Option Buffer
  ind_buffer : Option Buffer
  indices : List Nat
  to_aabb : Option Aabb
deriving DecidableEq

/-- `GameError`; `finish` only ever builds the `CustomError` variant. -/
inductive GameError where
  | CustomError (msg : String)
deriving DecidableEq

/-- `DrawCommand3d`: one queued draw request. -/
structure DrawCommand3d where
  mesh : Mesh3d
  param : DrawParam3d
  pipeline_id : Nat
deriving DecidableEq

/-- `Canvas3d`.  The `wgpu` context handle is external and carries no state the
claims observe; the camera uniform is an opaque token. -/
structure Canvas3d where
  default_shader : Shader
  default_image : Image
  draws : List DrawCommand3d
  state : DrawState3d
  original_state : DrawState3d
  pipelines : List (RenderPipeline × DrawState3d)
  depth : Image
  camera_uniform : Nat
  instance_buffer : Option (List Instance3d)
  camera_buffer : Buffer
  camera_bind_group : BindGroup
  target : Image
  clear_color : Color
  curr_sampler : Sampler
deriving DecidableEq

/-- `Canvas3d::new` (also reached via `from_frame` / `from_image`): the canvas
starts with an empty draw queue, the built-in shader as both current and
original state, no instance buffer, and a pipeline cache holding exactly the
default pipeline paired with the default draw state.  GPU-side construction
(camera buffer, bind groups, depth image) is performed by external
collaborators; their resulting handles are parameters here. -/
def mkCanvas (shader : Shader) (target depth default_image : Image)
    (camera_buffer : Buffer) (camera_bind_group : BindGroup)
    (camera_uniform : Nat) (clear_color : Color) : Canvas3d :=
  { default_shader := shader
    default_image := default_image
    draws := []
    state := { shader := shader }
    original_state := { shader := shader }
    pipelines := [({ builtFrom := { shader := shader } }, { shader := shader })]
    depth := depth
    camera_uniform := camera_uniform
    instance_buffer := none
    camera_buffer := camera_buffer
    camera_bind_group := camera_bind_group
    target := target
    clear_color := clear_color
    curr_sampler := Sampler.default }

/-- `Canvas3d::set_default_shader`. -/
def Canvas3d.set_default_shader (c : Canvas3d) : Canvas3d :=
  { c with state := { c.state with shader := c.default_shader } }

/-- `Canvas3d::set_shader`. -/
def Canvas3d.set_shader (c : Canvas3d) (shader : Shader) : Canvas3d :=
  { c with state := { c.state with shader := shader } }

/-- `Canvas3d::set_sampler`. -/
def Canvas3d.set_sampler (c : Canvas3d) (sampler : Sampler) : Canvas3d :=
  { c with curr_sampler := sampler }

/-- `Canvas3d::set_default_sampler`. -/
def Canvas3d.set_default_sampler (c : Canvas3d) : Canvas3d :=
  { c with curr_sampler := Sampler.default }

/-- `Canvas3d::update_camera` (and the camera part of `resize`): recomputes the
camera uniform from the externally owned camera and re-uploads it; the new
uniform value is a parameter since the camera lives outside the excerpt. -/
def Canvas3d.update_camera (c : Canvas3d) (uniform : Nat) : Canvas3d :=
  { c with camera_uniform := uniform }

/-- `Canvas3d::resize`: resizes the external camera projection and then updates
the camera uniform exactly as `update_camera` does; no other canvas field is
touched. -/
def Canvas3d.resize (c : Canvas3d) (uniform : Nat) : Canvas3d :=
  { c with camera_uniform := uniform }

/-- `Canvas3d::update_pipeline`: pushes onto `self.pipelines` a pipeline built
from `self.state`, paired with `self.state.clone()`.  The wgpu descriptor
(layouts, fixed-function state, vertex/fragment module fallback) is the same
for every push up to the draw state and is recorded as `builtFrom`. -/
def Canvas3d.update_pipeline (c : Canvas3d) : Canvas3d :=
  { c with pipelines := c.pipelines ++ [({ builtFrom := c.state }, c.state)] }

/-- Modelled from the spec: `Mesh3d::gen_bind_group` is defined outside the
excerpt; it attaches per-mesh GPU bind resources (creating them if absent) for
the given pipeline index and sampler, reading the canvas for its device handle
and default image, and generation failures are deferred to submission.  All
theorems quantify over this external function. -/
abbrev GenBindGroup := Mesh3d → Canvas3d → Nat → Sampler → Mesh3d

/-- The `for (i, state) in states.iter().enumerate()` loop body of
`draw_mesh`: the first argument is the running index `i`, then the remaining
snapshot of pipeline states, the current `id`, and the canvas (which
`update_pipeline` mutates mid-loop).  Note the second `if` compares `i`
against the CURRENT `self.pipelines.len() - 1`, not the snapshot's length. -/
def drawMeshLoop : Nat → List DrawState3d → Nat → Canvas3d → Nat × Canvas3d
  | _, [], id, c => (id, c)
  | i, st :: rest, id, c =>
    let id1 := if st.shader = c.state.shader then i else id
    if i = c.pipelines.length - 1 then
      drawMeshLoop (i + 1) rest (i + 1) c.update_pipeline
    else
      drawMeshLoop (i + 1) rest id1 c

/-- `Canvas3d::draw_mesh`: scans a cloned snapshot of the cached draw states,
then generates the mesh's bind group for the resolved `id` and current sampler,
and appends the `DrawCommand3d`. -/
def Canvas3d.draw_mesh (gen : GenBindGroup) (c : Canvas3d) (mesh : Mesh3d)
    (param : DrawParam3d) : Canvas3d :=
  let states : List DrawState3d := c.pipelines.map (fun x => x.2)
  let r := drawMeshLoop 0 states 0 c
  let id := r.1
  let c1 := r.2
  let mesh1 := gen mesh c1 id c1.curr_sampler
  { c1 with draws := c1.draws ++ [{ mesh := mesh1, param := param, pipeline_id := id }] }

/-- The closure mapped over `self.draws` in `update_instance_data`:
`if let Some(offset) = x.param.offset { Instance3d::from_param(&x.param, offset) }
else { Instance3d::from_param(&x.param, x.mesh.to_aabb().unwrap_or(Aabb::default()).center) }`. -/
def instanceRecord (d : DrawCommand3d) : Instance3d :=
  match d.param.offset with
  | some offset => Instance3d.from_param d.param offset
  | none => Instance3d.from_param d.param ((d.mesh.to_aabb.getD Aabb.default).center)

/-- `Canvas3d::update_instance_data`: maps the queue to instance records in
submission order and recreates the instance buffer from them (the
`create_buffer_init` upload is modelled by storing the record list). -/
def Canvas3d.update_instance_data (c : Canvas3d) : Canvas3d :=
  { c with instance_buffer := some (c.draws.map instanceRecord) }

/-- One member of the command stream `finish` encodes into its render pass. -/
inductive PassCmd where
  | setPipeline (idx : Nat)
  | setInstanceBuffer
  | setBindGroup0 (bg : BindGroup)
  | setCameraBindGroup
  | setVertBuffer (b : Buffer)
  | setIndBuffer (b : Buffer)
  | drawIndexed (indexStart indexEnd baseVertex instStart instEnd : Nat)
deriving DecidableEq

/-- Outcome of the render-pass loop in `finish`: `done` is `Ok(())`, `failed`
is the early `?`-return of a `GameError`, and the two panic markers stand for
the Rust panics that would arise from `self.pipelines[draw.pipeline_id]`
indexing out of bounds and from `self.instance_buffer.as_ref().unwrap()` on
`None`.  Both non-panic outcomes carry the commands encoded into the pass
before the loop ended. -/
inductive EncodeOutcome where
  | indexPanic
  | instBufPanic
  | failed (e : GameError) (cmds : List PassCmd)
  | done (cmds : List PassCmd)
deriving DecidableEq

/-- The `for (i, draw) in draws.iter().enumerate()` loop of `finish`, encoding
pass commands in program order: `set_pipeline` (indexing the cache),
`set_vertex_buffer(1, instance_buffer.unwrap())`, `set_bind_group(0, mesh
bind group?)`, `set_bind_group(1, camera)`, `set_vertex_buffer(0, vert?)`,
`set_index_buffer(ind?)`, `draw_indexed(0..indices.len(), 0, i..i+1)`. -/
def encodeLoop (c : Canvas3d) : Nat → List DrawCommand3d → List PassCmd → EncodeOutcome
  | _, [], acc => .done acc
  | i, d :: rest, acc =>
    if d.pipeline_id < c.pipelines.length then
      match c.instance_buffer with
      | none => .instBufPanic
      | some _ =>
        let acc1 := acc ++ [.setPipeline d.pipeline_id, .setInstanceBuffer]
        match d.mesh.bind_group with
        | none => .failed (.CustomError "Bind Group not generated for mesh") acc1
        | some bg =>
          let acc2 := acc1 ++ [.setBindGroup0 bg, .setCameraBindGroup]
          match d.mesh.vert_buffer with
          | none => .failed (.CustomError "Vert Buffer not generated for mesh") acc2
          | some vb =>
            let acc3 := acc2 ++ [.setVertBuffer vb]
            match d.mesh.ind_buffer with
            | none => .failed (.CustomError "Ind Buffer not generated for mesh") acc3
            | some ib =>
              encodeLoop c (i + 1) rest
                (acc3 ++ [.setIndBuffer ib,
                  .drawIndexed 0 d.mesh.indices.length 0 i (i + 1)])
    else .indexPanic

/-- `Canvas3d::finish`: first `update_instance_data`, then
`self.draws.drain(..)` (leaving the queue empty whatever happens next), then
the render pass over the drained list; the trailing `self.draws.clear()` is a
no-op since the queue was already drained.  Returns the post-call canvas and
the loop outcome. -/
def Canvas3d.finish (c : Canvas3d) : Canvas3d × EncodeOutcome :=
  let c1 := c.update_instance_data
  let draws := c1.draws
  let c2 := { c1 with draws := [] }
  (c2, encodeLoop c2 0 draws [])

/-- The first missing GPU resource of a queued draw's mesh, with the exact
error `finish` raises for it (bind group is checked before the vertex buffer,
which is checked before the index buffer). -/
def missingResource (d : DrawCommand3d) : Option GameError :=
  match d.mesh.bind_group with
  | none => some (.CustomError "Bind Group not generated for mesh")
  | some _ =>
    match d.mesh.vert_buffer with
    | none => some (.CustomError "Vert Buffer not generated for mesh")
    | some _ =>
      match d.mesh.ind_buffer with
      | none => some (.CustomError "Ind Buffer not generated for mesh")
      | some _ => none

/-- The full command block `finish` encodes for draw `i` when none of its
resources is missing. -/
def fullCmds (i : Nat) (d : DrawCommand3d) : List PassCmd :=
  [.setPipeline d.pipeline_id, .setInstanceBuffer,
   .setBindGroup0 (d.mesh.bind_group.getD 0), .setCameraBindGroup,
   .setVertBuffer (d.mesh.vert_buffer.getD 0),
   .setIndBuffer (d.mesh.ind_buffer.getD 0),
   .drawIndexed 0 d.mesh.indices.length 0 i (i + 1)]

/-- Commands encoded for a run of resource-complete draws starting at index `i`. -/
def encodeAll : Nat → List DrawCommand3d → List PassCmd
  | _, [] => []
  | i, d :: rest => fullCmds i d ++ encodeAll (i + 1) rest

/-- Whether a pass command is an indexed-draw call. -/
def isDrawCall : PassCmd → Bool
  | .drawIndexed _ _ _ _ _ => true
  | _ => false

/-- The indexed-draw calls of a command stream, in order. -/
def drawCalls (cmds : List PassCmd) : List PassCmd :=
  cmds.filter isDrawCall

/-- The indexed-draw calls `finish` is expected to issue for a draw list
starting at instance index `i`. -/
def expectedDrawCalls : Nat → List DrawCommand3d → List PassCmd
  | _, [] => []
  | i, d :: rest =>
    .drawIndexed 0 d.mesh.indices.length 0 i (i + 1) :: expectedDrawCalls (i + 1) rest

/-- Canvas states reachable from construction through the public interface. -/
inductive Reachable : Canvas3d → Prop
  | init (shader : Shader) (target depth default_image : Image)
      (camera_buffer : Buffer) (camera_bind_group : BindGroup)
      (camera_uniform : Nat) (clear_color : Color) :
      Reachable (mkCanvas shader target depth default_image camera_buffer
        camera_bind_group camera_uniform clear_color)
  | set_shader {c} (shader : Shader) : Reachable c → Reachable (c.set_shader shader)
  | set_default_shader {c} : Reachable c → Reachable c.set_default_shader
  | set_sampler {c} (sampler : Sampler) : Reachable c → Reachable (c.set_sampler sampler)
  | set_default_sampler {c} : Reachable c → Reachable c.set_default_sampler
  | update_camera {c} (uniform : Nat) : Reachable c → Reachable (c.update_camera uniform)
  | resize {c} (uniform : Nat) : Reachable c → Reachable (c.resize uniform)
  | draw_mesh {c} (gen : GenBindGroup) (mesh : Mesh3d) (param : DrawParam3d) :
      Reachable c → Reachable (c.draw_mesh gen mesh param)
  | finish {c} : Reachable c → Reachable c.finish.1

/-- Well-formedness invariant of a canvas: the pipeline cache is nonempty and
every queued command's `pipeline_id` indexes into it. -/
def WF (c : Canvas3d) : Prop :=
  c.pipelines ≠ [] ∧ ∀ d ∈ c.draws, d.pipeline_id < c.pipelines.length

/-- An enqueue script whose shader components alternate between `a` (even
positions) and `b` (odd positions). -/
def Alternates (a b : Shader) (l : List (Shader × Mesh3d × DrawParam3d)) : Prop :=
  l.map (fun x => x.1) = (List.range l.length).map (fun i => if i % 2 = 0 then a else b)

/-- Run an enqueue script: each step selects its shader with `set_shader` and
then enqueues with `draw_mesh`. -/
def applySeq (gen : GenBindGroup) : Canvas3d → List (Shader × Mesh3d × DrawParam3d) → Canvas3d
  | c, [] => c
  | c, (s, m, p) :: rest => applySeq gen ((c.set_shader s).draw_mesh gen m p) rest

/-- The built-in `draw3d.wgsl` shader a fresh canvas is constructed with. -/
def shader0 : Shader := ⟨0⟩

/-- A freshly constructed canvas (concrete handles for the external GPU objects). -/
def canvas0 : Canvas3d := mkCanvas shader0 0 0 0 0 0 0 0

/-- A mesh whose GPU resources were all generated. -/
def meshGood : Mesh3d :=
  { bind_group := some 1, vert_buffer := some 2, ind_buffer := some 3,
    indices := [0, 1, 2], to_aabb := none }

/-- A mesh whose index buffer was never generated. -/
def meshNoInd : Mesh3d :=
  { bind_group := some 1, vert_buffer := some 2, ind_buffer := none,
    indices := [0, 1, 2], to_aabb := some ⟨⟨1, 2, 3⟩⟩ }

/-- Draw parameters with no explicit pivot offset. -/
def param0 : DrawParam3d := { offset := none, rest := 0 }

/-- A bind-group generator that leaves the mesh unchanged (resources already
generated or generation declined; failures are deferred to submission). -/
def gen0 : GenBindGroup := fun m _ _ _ => m

/-- A canvas holding one queued draw of a fully generated mesh. -/
def cGood : Canvas3d :=
  { canvas0 with draws := [{ mesh := meshGood, param := param0, pipeline_id := 0 }] }

/-- A canvas holding one queued draw whose mesh lacks an index buffer. -/
def cBad : Canvas3d :=
  { canvas0 with draws := [{ mesh := meshNoInd, param := param0, pipeline_id := 0 }] }

/-- A two-step enqueue script alternating between two distinct shaders. -/
def seqAB : List (Shader × Mesh3d × DrawParam3d) :=
  [(⟨1⟩, meshGood, param0), (⟨2⟩, meshGood, param0)]

/-- The scan loop of `draw_mesh` always takes its append branch exactly at the
last snapshot index: whatever matches the earlier `if` found, the final
iteration (where `i = pipelines.len() - 1` still holds, the push not yet
done) overwrites `id` with `i + 1` and pushes a new pipeline.  Hence for a
snapshot of the whole cache the loop returns the old cache length as `id` and
the canvas with one pipeline appended. -/
theorem drawMeshLoop_spec (l : List DrawState3d) :
    ∀ (i id : Nat) (c : Canvas3d), l ≠ [] → c.pipelines.length = i + l.length →
      drawMeshLoop i l id c = (i + l.length, c.update_pipeline) := by
  induction l with
  | nil => intro i id c hne _; exact absurd rfl hne
  | cons s rest ih =>
    intro i id c _ hlen
    by_cases hi : i = c.pipelines.length - 1
    · have hrest : rest = [] := by
        cases rest with
        | nil => rfl
        | cons a b => exfalso; simp only [List.length_cons] at hlen; omega
      subst hrest
      simp only [drawMeshLoop, if_pos hi, List.length_cons, List.length_nil]
    · have hne2 : rest ≠ [] := by
        intro h
        subst h
        simp only [List.length_cons, List.length_nil] at hlen
        omega
      simp only [drawMeshLoop, if_neg hi]
      rw [ih (i + 1) (if s.shader = c.state.shader then i else id) c hne2
        (by simp only [List.length_cons] at hlen ⊢; omega)]
      have harith : i + 1 + rest.length = i + (s :: rest).length := by
        simp only [List.length_cons]; omega
      rw [harith]

/-- Closed form of `draw_mesh` on any canvas with a nonempty pipeline cache:
it appends one pipeline built from the current state and enqueues the command
with `pipeline_id` equal to the old cache length (the new entry's index). -/
theorem draw_mesh_eq (gen : GenBindGroup) (c : Canvas3d) (mesh : Mesh3d)
    (param : DrawParam3d) (h : c.pipelines ≠ []) :
    c.draw_mesh gen mesh param =
      { c.update_pipeline with
        draws := c.draws ++
          [{ mesh := gen mesh c.update_pipeline c.pipelines.length c.curr_sampler,
             param := param, pipeline_id := c.pipelines.length }] } := by
  have hne : c.pipelines.map (fun x => x.2) ≠ [] := by
    simpa using h
  have hspec := drawMeshLoop_spec (c.pipelines.map (fun x => x.2)) 0 0 c hne
    (by simp)
  simp only [Canvas3d.draw_mesh, hspec, List.length_map, Nat.zero_add]
  rfl

/-- `draw_mesh` grows the pipeline cache by exactly the appended entry. -/
theorem draw_mesh_pipelines (gen : GenBindGroup) (c : Canvas3d) (mesh : Mesh3d)
    (param : DrawParam3d) (h : c.pipelines ≠ []) :
    (c.draw_mesh gen mesh param).pipelines
      = c.pipelines ++ [({ builtFrom := c.state }, c.state)] := by
  rw [draw_mesh_eq gen c mesh param h]
  rfl

/-- `draw_mesh` appends one command, with `pipeline_id` the old cache length. -/
theorem draw_mesh_draws (gen : GenBindGroup) (c : Canvas3d) (mesh : Mesh3d)
    (param : DrawParam3d) (h : c.pipelines ≠ []) :
    (c.draw_mesh gen mesh param).draws
      = c.draws ++
          [{ mesh := gen mesh c.update_pipeline c.pipelines.length c.curr_sampler,
             param := param, pipeline_id := c.pipelines.length }] := by
  rw [draw_mesh_eq gen c mesh param h]

/-- The render-pass loop of `finish`, on valid pipeline ids and an existing
instance buffer, either encodes every draw (all resources present) or stops at
the first draw with a missing resource, returning its error; the commands
encoded past the complete prefix contain no indexed-draw call. -/
theorem encodeLoop_cases (c : Canvas3d) (buf : List Instance3d)
    (hbuf : c.instance_buffer = some buf) (l : List DrawCommand3d) :
    ∀ (i : Nat) (acc : List PassCmd),
      (∀ d ∈ l, d.pipeline_id < c.pipelines.length) →
      ((∀ d ∈ l, missingResource d = none)
          ∧ encodeLoop c i l acc = .done (acc ++ encodeAll i l))
      ∨ (∃ pre dbad post e tail, l = pre ++ dbad :: post
          ∧ (∀ d ∈ pre, missingResource d = none)
          ∧ missingResource dbad = some e
          ∧ encodeLoop c i l acc = .failed e (acc ++ (encodeAll i pre ++ tail))
          ∧ drawCalls tail = []) := by
  induction l with
  | nil =>
    intro i acc _
    left
    exact ⟨fun d hd => absurd hd (List.not_mem_nil d), by simp [encodeLoop, encodeAll]⟩
  | cons d rest ih =>
    intro i acc hvalid
    have hd : d.pipeline_id < c.pipelines.length := hvalid d (by simp)
    have hrest : ∀ x ∈ rest, x.pipeline_id < c.pipelines.length := by
      intro x hx; exact hvalid x (by simp [hx])
    cases hbg : d.mesh.bind_group with
    | none =>
      right
      refine ⟨[], d, rest, .CustomError "Bind Group not generated for mesh",
        [.setPipeline d.pipeline_id, .setInstanceBuffer], by simp, by simp,
        by simp [missingResource, hbg], ?_, by simp [drawCalls, isDrawCall]⟩
      simp [encodeLoop, if_pos hd, hbuf, hbg, encodeAll]
    | some bg =>
      cases hvb : d.mesh.vert_buffer with
      | none =>
        right
        refine ⟨[], d, rest, .CustomError "Vert Buffer not generated for mesh",
          [.setPipeline d.pipeline_id, .setInstanceBuffer, .setBindGroup0 bg,
           .setCameraBindGroup], by simp, by simp,
          by simp [missingResource, hbg, hvb], ?_, by simp [drawCalls, isDrawCall]⟩
        simp [encodeLoop, if_pos hd, hbuf, hbg, hvb, encodeAll]
      | some vb =>
        cases hib : d.mesh.ind_buffer with
        | none =>
          right
          refine ⟨[], d, rest, .CustomError "Ind Buffer not generated for mesh",
            [.setPipeline d.pipeline_id, .setInstanceBuffer, .setBindGroup0 bg,
             .setCameraBindGroup, .setVertBuffer vb], by simp, by simp,
            by simp [missingResource, hbg, hvb, hib], ?_,
            by simp [drawCalls, isDrawCall]⟩
          simp [encodeLoop, if_pos hd, hbuf, hbg, hvb, hib, encodeAll]
        | some ib =>
          have hmissd : missingResource d = none := by
            simp [missingResource, hbg, hvb, hib]
          have hstep : encodeLoop c i (d :: rest) acc
              = encodeLoop c (i + 1) rest
                  (acc ++ [.setPipeline d.pipeline_id, .setInstanceBuffer]
                    ++ [.setBindGroup0 bg, .setCameraBindGroup]
                    ++ [.setVertBuffer vb]
                    ++ [.setIndBuffer ib,
                        .drawIndexed 0 d.mesh.indices.length 0 i (i + 1)]) := by
            simp [encodeLoop, if_pos hd, hbuf, hbg, hvb, hib]
          rcases ih (i + 1)
              (acc ++ [.setPipeline d.pipeline_id, .setInstanceBuffer]
                ++ [.setBindGroup0 bg, .setCameraBindGroup]
                ++ [.setVertBuffer vb]
                ++ [.setIndBuffer ib,
                    .drawIndexed 0 d.mesh.indices.length 0 i (i + 1)]) hrest with
            hgood | hfail
          · left
            refine ⟨?_, ?_⟩
            · intro x hx
              rcases List.mem_cons.mp hx with hx | hx
              · subst hx; exact hmissd
              · exact hgood.1 x hx
            · rw [hstep, hgood.2]
              simp [encodeAll, fullCmds, hbg, hvb, hib, List.append_assoc]
          · obtain ⟨pre, dbad, post, e, tail, hsplit, hpre, hmiss, heq, htail⟩ := hfail
            right
            refine ⟨d :: pre, dbad, post, e, tail, by simp [hsplit], ?_, hmiss, ?_, htail⟩
            · intro x hx
              rcases List.mem_cons.mp hx with hx | hx
              · subst hx; exact hmissd
              · exact hpre x hx
            · rw [hstep, heq]
              simp [encodeAll, fullCmds, hbg, hvb, hib, List.append_assoc]

/-- The indexed-draw calls among the commands of a complete run are one per
draw, in order. -/
theorem drawCalls_encodeAll (l : List DrawCommand3d) :
    ∀ i, drawCalls (encodeAll i l) = expectedDrawCalls i l := by
  induction l with
  | nil => intro i; simp [encodeAll, expectedDrawCalls, drawCalls]
  | cons d rest ih =>
    intro i
    simp [encodeAll, expectedDrawCalls, drawCalls, fullCmds, List.filter_append,
      isDrawCall]
    exact ih (i + 1)

/-- There is one expected indexed-draw call per queued draw. -/
theorem expectedDrawCalls_length (l : List DrawCommand3d) :
    ∀ i, (expectedDrawCalls i l).length = l.length := by
  induction l with
  | nil => intro i; rfl
  | cons d rest ih => intro i; simp [expectedDrawCalls, ih (i + 1)]

/-- The expected indexed-draw call at position `i` covers index range
`[0, indices.len)`, base vertex `0` and instance range `[j+i, j+i+1)`. -/
theorem expectedDrawCalls_get (l : List DrawCommand3d) :
    ∀ j i (hi : i < l.length),
      (expectedDrawCalls j l).get? i
        = some (.drawIndexed 0 (l.get ⟨i, hi⟩).mesh.indices.length 0 (j + i) (j + i + 1)) := by
  induction l with
  | nil => intro j i hi; exact absurd hi (by simp)
  | cons d rest ih =>
    intro j i hi
    cases i with
    | zero => simp [expectedDrawCalls]
    | succ i' =>
      have hi' : i' < rest.length := by simpa using hi
      have := ih (j + 1) i' hi'
      simp only [expectedDrawCalls, List.get?_cons_succ, List.get_cons_succ]
      rw [this]
      have h1 : j + 1 + i' = j + (i' + 1) := by omega
      rw [h1]

/-- A draw has a missing resource exactly when its mesh lacks a bind group,
vertex buffer or index buffer. -/
theorem missingResource_ne_none (d : DrawCommand3d) :
    missingResource d ≠ none
      ↔ (d.mesh.bind_group = none ∨ d.mesh.vert_buffer = none
          ∨ d.mesh.ind_buffer = none) := by
  cases hbg : d.mesh.bind_group <;> cases hvb : d.mesh.vert_buffer <;>
    cases hib : d.mesh.ind_buffer <;> simp [missingResource, hbg, hvb, hib]

/-- `finish` drains the queue, then encodes the drained list against the
canvas as left by `update_instance_data`. -/
theorem finish_snd (c : Canvas3d) :
    c.finish.2 = encodeLoop { c.update_instance_data with draws := [] } 0 c.draws [] := rfl

/-- The canvas `finish` encodes against has the instance buffer just built. -/
theorem finish_instance_buffer (c : Canvas3d) :
    ({ c.update_instance_data with draws := [] } : Canvas3d).instance_buffer
      = some (c.draws.map instanceRecord) := rfl

/-- The canvas `finish` encodes against keeps the pipeline cache unchanged. -/
theorem finish_pipelines_aux (c : Canvas3d) :
    ({ c.update_instance_data with draws := [] } : Canvas3d).pipelines = c.pipelines := rfl

/-- The render-pass loop never reaches the `instance_buffer.unwrap()` panic
when the instance buffer exists. -/
theorem encodeLoop_ne_instBufPanic (c : Canvas3d) (buf : List Instance3d)
    (hbuf : c.instance_buffer = some buf) (l : List DrawCommand3d) :
    ∀ i acc, encodeLoop c i l acc ≠ .instBufPanic := by
  induction l with
  | nil => intro i acc; simp [encodeLoop]
  | cons d rest ih =>
    intro i acc
    by_cases hd : d.pipeline_id < c.pipelines.length
    · cases hbg : d.mesh.bind_group with
      | none => simp [encodeLoop, if_pos hd, hbuf, hbg]
      | some bg =>
        cases hvb : d.mesh.vert_buffer with
        | none => simp [encodeLoop, if_pos hd, hbuf, hbg, hvb]
        | some vb =>
          cases hib : d.mesh.ind_buffer with
          | none => simp [encodeLoop, if_pos hd, hbuf, hbg, hvb, hib]
          | some ib =>
            simp only [encodeLoop, if_pos hd, hbuf, hbg, hvb, hib]
            exact ih (i + 1) _
    · simp [encodeLoop, if_neg hd]

/-- C1: evaluation of the code at the spec's own scenario (three `draw_mesh`
calls with the untouched default shader, then `finish`): the pipeline cache
ends with 4 entries, not 1.  The scan in `draw_mesh` unconditionally takes the
`i == pipelines.len() - 1` branch on the last iteration, overwriting any
matched index and appending a new pipeline on every call. -/
theorem C1_pipeline_cache_growth_eval :
    canvas0.state.shader = canvas0.default_shader
    ∧ ((((canvas0.draw_mesh gen0 meshGood param0).draw_mesh gen0 meshGood
          param0).draw_mesh gen0 meshGood param0).finish.1).pipelines.length = 4 := by
  constructor
  · rfl
  · rfl

/-- C2: evaluation of the code at an input where the cache already holds an
entry equal to the current state: on a fresh canvas the sole cached entry's
`DrawState3d` equals the current state, yet `draw_mesh` still appends a new
pipeline and resolves the command's `pipeline_id` to the new entry's index 1,
not to the matching index 0. -/
theorem C2_always_appends_eval :
    canvas0.pipelines.map (fun x => x.2) = [canvas0.state]
    ∧ (canvas0.draw_mesh gen0 meshGood param0).pipelines.length
        = canvas0.pipelines.length + 1
    ∧ (canvas0.draw_mesh gen0 meshGood param0).draws.map (fun d => d.pipeline_id)
        = [1] := by
  refine ⟨rfl, rfl, rfl⟩

/-- C4: after `finish` returns — on the success path and on every
resource-missing failure path alike — the draw queue is empty, because the
queue is drained before the render pass begins. -/
theorem C4_draw_queue_empty_after_finish (c : Canvas3d) :
    c.finish.1.draws = [] := rfl

/-- C9: `set_shader` and `set_default_shader` mutate only the current shader
state used by later `draw_mesh` calls: every enqueued command (hence its
resolved `pipeline_id`) and every other canvas field is unchanged. -/
theorem C9_set_shader_only_mutates_state (c : Canvas3d) (s : Shader) :
    ((c.set_shader s).state.shader = s
      ∧ (c.set_shader s).draws = c.draws
      ∧ (c.set_shader s).draws.map (fun d => d.pipeline_id)
          = c.draws.map (fun d => d.pipeline_id)
      ∧ (c.set_shader s).pipelines = c.pipelines
      ∧ (c.set_shader s).instance_buffer = c.instance_buffer
      ∧ (c.set_shader s).camera_buffer = c.camera_buffer
      ∧ (c.set_shader s).camera_bind_group = c.camera_bind_group
      ∧ (c.set_shader s).camera_uniform = c.camera_uniform
      ∧ (c.set_shader s).target = c.target
      ∧ (c.set_shader s).depth = c.depth
      ∧ (c.set_shader s).clear_color = c.clear_color
      ∧ (c.set_shader s).curr_sampler = c.curr_sampler
      ∧ (c.set_shader s).default_shader = c.default_shader
      ∧ (c.set_shader s).default_image = c.default_image
      ∧ (c.set_shader s).original_state = c.original_state)
    ∧ (c.set_default_shader.state.shader = c.default_shader
      ∧ c.set_default_shader.draws = c.draws
      ∧ c.set_default_shader.draws.map (fun d => d.pipeline_id)
          = c.draws.map (fun d => d.pipeline_id)
      ∧ c.set_default_shader.pipelines = c.pipelines
      ∧ c.set_default_shader.instance_buffer = c.instance_buffer
      ∧ c.set_default_shader.camera_buffer = c.camera_buffer
      ∧ c.set_default_shader.camera_bind_group = c.camera_bind_group
      ∧ c.set_default_shader.camera_uniform = c.camera_uniform
      ∧ c.set_default_shader.target = c.target
      ∧ c.set_default_shader.depth = c.depth
      ∧ c.set_default_shader.clear_color = c.clear_color
      ∧ c.set_default_shader.curr_sampler = c.curr_sampler
      ∧ c.set_default_shader.default_shader = c.default_shader
      ∧ c.set_default_shader.default_image = c.default_image
      ∧ c.set_default_shader.original_state = c.original_state) :=
  ⟨⟨rfl, rfl, rfl, rfl, rfl, rfl, rfl, rfl, rfl, rfl, rfl, rfl, rfl, rfl, rfl⟩,
   ⟨rfl, rfl, rfl, rfl, rfl, rfl, rfl, rfl, rfl, rfl, rfl, rfl, rfl, rfl, rfl⟩⟩

/-- C10: the `instance_buffer.unwrap()` in the render-pass loop can never
panic: `finish` runs `update_instance_data` first, which unconditionally sets
the instance buffer to `Some`, so the loop never hits the `None` case. -/
theorem C10_instance_buffer_unwrap_safe (c : Canvas3d) :
    (c.update_instance_data).instance_buffer = some (c.draws.map instanceRecord)
    ∧ c.finish.2 ≠ .instBufPanic := by
  refine ⟨rfl, ?_⟩
  rw [finish_snd]
  exact encodeLoop_ne_instBufPanic _ (c.draws.map instanceRecord) rfl c.draws 0 []

/-- C3: for every canvas whose queued pipeline ids are valid, `finish` fails
(rather than succeeding or panicking) exactly when some drawn mesh lacks a
generated bind group, vertex buffer or index buffer; the returned error is the
descriptive `GameError` naming the first missing resource kind of the first
failing draw, and no indexed-draw call after that draw is encoded. -/
theorem C3_finish_error_iff_missing_resource (c : Canvas3d)
    (h : ∀ d ∈ c.draws, d.pipeline_id < c.pipelines.length) :
    ((∃ e cmds, c.finish.2 = .failed e cmds)
        ↔ ∃ d ∈ c.draws, d.mesh.bind_group = none ∨ d.mesh.vert_buffer = none
            ∨ d.mesh.ind_buffer = none)
    ∧ c.finish.2 ≠ .indexPanic
    ∧ c.finish.2 ≠ .instBufPanic
    ∧ ∀ e cmds, c.finish.2 = .failed e cmds →
        ∃ pre dbad post, c.draws = pre ++ dbad :: post
          ∧ (∀ d ∈ pre, missingResource d = none)
          ∧ missingResource dbad = some e
          ∧ drawCalls cmds = expectedDrawCalls 0 pre := by
  rcases encodeLoop_cases { c.update_instance_data with draws := [] }
      (c.draws.map instanceRecord) rfl c.draws 0 [] h with
    ⟨hall, heq⟩ | ⟨pre, dbad, post, e, tail, hsplit, hpre, hmiss, heq, htail⟩
  · refine ⟨⟨?_, ?_⟩, ?_, ?_, ?_⟩
    · rintro ⟨e, cmds, hf⟩
      rw [finish_snd, heq] at hf
      cases hf
    · rintro ⟨d, hd, hdisj⟩
      exact absurd (hall d hd) ((missingResource_ne_none d).mpr hdisj)
    · rw [finish_snd, heq]; simp
    · rw [finish_snd, heq]; simp
    · intro e cmds hf
      rw [finish_snd, heq] at hf
      cases hf
  · have hdmem : dbad ∈ c.draws := by rw [hsplit]; simp
    refine ⟨⟨?_, ?_⟩, ?_, ?_, ?_⟩
    · intro _
      exact ⟨dbad, hdmem, (missingResource_ne_none dbad).mp (by simp [hmiss])⟩
    · intro _
      exact ⟨e, [] ++ (encodeAll 0 pre ++ tail), by rw [finish_snd, heq]⟩
    · rw [finish_snd, heq]; simp
    · rw [finish_snd, heq]; simp
    · intro e' cmds' hf
      rw [finish_snd, heq] at hf
      simp only [EncodeOutcome.failed.injEq] at hf
      refine ⟨pre, dbad, post, hsplit, hpre, hf.1 ▸ hmiss, ?_⟩
      rw [← hf.2]
      simp only [List.nil_append, drawCalls, List.filter_append]
      have h1 : List.filter isDrawCall (encodeAll 0 pre) = expectedDrawCalls 0 pre :=
        drawCalls_encodeAll pre 0
      have h2 : List.filter isDrawCall tail = [] := htail
      rw [h1, h2, List.append_nil]

/-- C5: `update_instance_data` builds exactly one instance record per queued
draw, in submission order; each record's pivot is the draw's explicit offset
if supplied, otherwise the computed bounding-volume center, otherwise the
center of the zero-centered default bounding volume. -/
theorem C5_instance_records (c : Canvas3d) :
    ∃ l, (c.update_instance_data).instance_buffer = some l
      ∧ l.length = c.draws.length
      ∧ ∀ i (hi : i < c.draws.length),
          l.get? i = some (Instance3d.from_param (c.draws.get ⟨i, hi⟩).param
            (match (c.draws.get ⟨i, hi⟩).param.offset,
                   (c.draws.get ⟨i, hi⟩).mesh.to_aabb with
             | some o, _ => o
             | none, some box => box.center
             | none, none => ⟨0, 0, 0⟩)) := by
  refine ⟨c.draws.map instanceRecord, rfl, by simp, ?_⟩
  intro i hi
  rw [List.get?_map, List.get?_eq_get hi]
  simp only [Option.map_some']
  congr 1
  unfold instanceRecord
  rcases hoff : (c.draws.get ⟨i, hi⟩).param.offset with _ | o
  · rcases hab : (c.draws.get ⟨i, hi⟩).mesh.to_aabb with _ | box
    · simp [hoff, hab, Aabb.default]
    · simp [hoff, hab]
  · simp [hoff]

/-- C6: when `finish` succeeds, the drained list's `i`-th command is encoded
as exactly one indexed-draw call with instance range `[i, i+1)`, base vertex 0
and index range `[0, indices.len)`. -/
theorem C6_one_draw_call_per_command (c : Canvas3d)
    (h : ∀ d ∈ c.draws, d.pipeline_id < c.pipelines.length) (cmds : List PassCmd)
    (hdone : c.finish.2 = .done cmds) :
    (drawCalls cmds).length = c.draws.length
    ∧ ∀ i (hi : i < c.draws.length),
        (drawCalls cmds).get? i
          = some (.drawIndexed 0 (c.draws.get ⟨i, hi⟩).mesh.indices.length 0 i (i + 1)) := by
  rcases encodeLoop_cases { c.update_instance_data with draws := [] }
      (c.draws.map instanceRecord) rfl c.draws 0 [] h with
    ⟨hall, heq⟩ | ⟨pre, dbad, post, e, tail, hsplit, hpre, hmiss, heq, htail⟩
  · rw [finish_snd, heq] at hdone
    simp only [EncodeOutcome.done.injEq, List.nil_append] at hdone
    subst hdone
    refine ⟨?_, ?_⟩
    · rw [drawCalls_encodeAll, expectedDrawCalls_length]
    · intro i hi
      rw [drawCalls_encodeAll]
      have := expectedDrawCalls_get c.draws 0 i hi
      simpa using this
  · rw [finish_snd, heq] at hdone
    cases hdone

/-- Every canvas reachable through the public interface is well-formed: its
pipeline cache is nonempty and every queued `pipeline_id` indexes it. -/
theorem wf_of_reachable {c : Canvas3d} (h : Reachable c) : WF c := by
  induction h with
  | init shader target depth default_image camera_buffer camera_bind_group
      camera_uniform clear_color =>
    refine ⟨by simp [mkCanvas], ?_⟩
    intro d hd
    simp [mkCanvas] at hd
  | set_shader s hr ih => exact ih
  | set_default_shader hr ih => exact ih
  | set_sampler s hr ih => exact ih
  | set_default_sampler hr ih => exact ih
  | update_camera u hr ih => exact ih
  | resize u hr ih => exact ih
  | draw_mesh gen mesh param hr ih =>
    obtain ⟨hne, hids⟩ := ih
    refine ⟨?_, ?_⟩
    · rw [draw_mesh_pipelines gen _ mesh param hne]
      simp
    · intro d hd
      rw [draw_mesh_draws gen _ mesh param hne] at hd
      rw [draw_mesh_pipelines gen _ mesh param hne]
      simp only [List.length_append, List.length_cons, List.length_nil]
      rcases List.mem_append.mp hd with hd | hd
      · have := hids d hd
        omega
      · simp only [List.mem_singleton] at hd
        subst hd
        simp
  | finish hr ih =>
    obtain ⟨hne, _⟩ := ih
    refine ⟨hne, ?_⟩
    intro d hd
    cases hd

/-- C7: on every reachable canvas state, each queued `DrawCommand3d`'s
`pipeline_id` is a valid index into the pipeline cache when `finish` runs, so
the cache indexing in the render-pass loop never goes out of bounds. -/
theorem C7_pipeline_ids_valid (c : Canvas3d) (h : Reachable c) :
    (∀ d ∈ c.draws, d.pipeline_id < c.pipelines.length)
    ∧ c.finish.2 ≠ .indexPanic := by
  have hwf := wf_of_reachable h
  refine ⟨hwf.2, ?_⟩
  rcases encodeLoop_cases { c.update_instance_data with draws := [] }
      (c.draws.map instanceRecord) rfl c.draws 0 [] hwf.2 with
    ⟨_, heq⟩ | ⟨_, _, _, _, _, _, _, _, heq, _⟩ <;>
    rw [finish_snd, heq] <;> simp

/-- Each scripted enqueue (a `set_shader` followed by `draw_mesh`) grows the
pipeline cache by exactly one entry, whatever the shaders are. -/
theorem applySeq_pipelines_length (gen : GenBindGroup) :
    ∀ (l : List (Shader × Mesh3d × DrawParam3d)) (c : Canvas3d), c.pipelines ≠ [] →
      (applySeq gen c l).pipelines.length = c.pipelines.length + l.length := by
  intro l
  induction l with
  | nil => intro c _; simp [applySeq]
  | cons x rest ih =>
    obtain ⟨s, m, p⟩ := x
    intro c hne
    have hne2 : (c.set_shader s).pipelines ≠ [] := hne
    have hpipe := draw_mesh_pipelines gen (c.set_shader s) m p hne2
    have hne3 : ((c.set_shader s).draw_mesh gen m p).pipelines ≠ [] := by
      rw [hpipe]
      simp
    have hss : (c.set_shader s).pipelines = c.pipelines := rfl
    simp only [applySeq]
    rw [ih _ hne3, hpipe, hss]
    simp only [List.length_append, List.length_cons, List.length_nil]
    omega

/-- C8: along any enqueue script that alternates between two distinct shaders
on a fresh canvas, the pipeline cache size is monotonically non-decreasing and
after `k` enqueue calls never exceeds `k + 1`. -/
theorem C8_cache_growth_monotonic_bounded (a b : Shader) (hab : a ≠ b)
    (l : List (Shader × Mesh3d × DrawParam3d)) (halt : Alternates a b l)
    (gen : GenBindGroup) (shader : Shader) (target depth default_image : Image)
    (camera_buffer : Buffer) (camera_bind_group : BindGroup)
    (camera_uniform : Nat) (clear_color : Color)
    (j k : Nat) (hjk : j ≤ k) (hk : k ≤ l.length) :
    (applySeq gen (mkCanvas shader target depth default_image camera_buffer
        camera_bind_group camera_uniform clear_color) (l.take j)).pipelines.length
      ≤ (applySeq gen (mkCanvas shader target depth default_image camera_buffer
          camera_bind_group camera_uniform clear_color) (l.take k)).pipelines.length
    ∧ (applySeq gen (mkCanvas shader target depth default_image camera_buffer
        camera_bind_group camera_uniform clear_color) (l.take k)).pipelines.length
      ≤ k + 1 := by
  have hne : (mkCanvas shader target depth default_image camera_buffer
      camera_bind_group camera_uniform clear_color).pipelines ≠ [] := by
    simp [mkCanvas]
  have hj := applySeq_pipelines_length gen (l.take j) _ hne
  have hkk := applySeq_pipelines_length gen (l.take k) _ hne
  have h1 : (mkCanvas shader target depth default_image camera_buffer
      camera_bind_group camera_uniform clear_color).pipelines.length = 1 := rfl
  have hlenj : (l.take j).length = j := by rw [List.length_take]; omega
  have hlenk : (l.take k).length = k := by rw [List.length_take]; omega
  rw [hj, hkk, h1, hlenj, hlenk]
  omega

/-- Witness for C3: a queued mesh lacking a generated index buffer makes
`finish` return a resource-missing error. -/
theorem C3_witness_missing_ind_buffer :
    ∃ e cmds, cBad.finish.2 = EncodeOutcome.failed e cmds :=
  (C3_finish_error_iff_missing_resource cBad (by decide)).1.mpr
    ⟨{ mesh := meshNoInd, param := param0, pipeline_id := 0 }, by decide, by decide⟩

/-- Witness for C5: on a canvas with one queued draw with no explicit offset
and no computed bounds, the sole instance record's pivot is the zero-centered
default bounding-volume center. -/
theorem C5_witness :
    ∃ l, (cGood.update_instance_data).instance_buffer = some l
      ∧ l.get? 0 = some (Instance3d.from_param param0 ⟨0, 0, 0⟩) := by
  obtain ⟨l, h1, _, h3⟩ := C5_instance_records cGood
  refine ⟨l, h1, ?_⟩
  have h0 := h3 0 (by decide)
  rw [h0]
  decide

/-- Witness for C6: a successful frame with one queued three-index mesh issues
exactly one indexed-draw call with index range `[0, 3)` and instance range
`[0, 1)`. -/
theorem C6_witness : ∃ cmds, cGood.finish.2 = EncodeOutcome.done cmds
    ∧ (drawCalls cmds).length = 1
    ∧ (drawCalls cmds).get? 0 = some (PassCmd.drawIndexed 0 3 0 0 1) := by
  have h0 : cGood.finish.2 = EncodeOutcome.done (encodeAll 0 cGood.draws) := by decide
  have h := C6_one_draw_call_per_command cGood (by decide) (encodeAll 0 cGood.draws) h0
  refine ⟨encodeAll 0 cGood.draws, h0, ?_, ?_⟩
  · rw [h.1]; decide
  · have h2 := h.2 0 (by decide)
    rw [h2]
    decide

/-- Witness for C7: a fresh canvas after one `draw_mesh` call is reachable,
its queued id is in bounds, and `finish` does not index out of bounds. -/
theorem C7_witness :
    (∀ d ∈ (canvas0.draw_mesh gen0 meshGood param0).draws,
        d.pipeline_id < (canvas0.draw_mesh gen0 meshGood param0).pipelines.length)
    ∧ (canvas0.draw_mesh gen0 meshGood param0).finish.2 ≠ EncodeOutcome.indexPanic :=
  C7_pipeline_ids_valid _ (Reachable.draw_mesh gen0 meshGood param0
    (Reachable.init shader0 0 0 0 0 0 0 0))

/-- Witness for C8: along a two-step script alternating two distinct shaders,
cache size is monotone from prefix 1 to prefix 2 and bounded by `2 + 1`. -/
theorem C8_witness :
    (applySeq gen0 canvas0 (seqAB.take 1)).pipelines.length
      ≤ (applySeq gen0 canvas0 (seqAB.take 2)).pipelines.length
    ∧ (applySeq gen0 canvas0 (seqAB.take 2)).pipelines.length ≤ 2 + 1 :=
  C8_cache_growth_monotonic_bounded ⟨1⟩ ⟨2⟩ (by decide) seqAB
    (by unfold Alternates; decide) gen0
    shader0 0 0 0 0 0 0 0 1 2 (by decide) (by decide)
